import Mathlib

/-!
Verification of the recursive nested-reconstruction dispatcher
`columns_to_iter_recursive` from
`crates/polars-parquet/src/arrow/read/deserialize/nested.rs`.

The dispatcher itself is embedded from the source.  External collaborators
(the page-level nested decoder, the decimal byte converters, the leaf-count
function, the validity freezer, the container builders) are not part of the
provided source and are modelled from the specification; each such
definition carries a doc comment starting with `Modelled from the spec:`.

Representation conventions of this shallow embedding:
* Rust `Vec` stacks (`columns`, `types`, `init`, `NestedState`) are Lean
  lists in REVERSED order: the head of the Lean list is the END of the Rust
  vector, so `Vec::pop` is head/tail, `Vec::push` is cons, and
  `v.split_off(v.len() - n)` is `take n` / `drop n`.  Consequently `init`
  and the per-level data of a leaf column are innermost-level-first.
* Rust panics (`unwrap` on `None`, `assert!`, `debug_assert!`,
  `unreachable!`, slice splits out of bounds) are the `panicked` outcome,
  distinct from returned `PolarsResult` errors (`err`).
* `#[cfg(debug_assertions)]` is the explicit `debug : Bool` parameter.
* Machine integers are `Int`/`Nat`; Rust `as` casts wrap two's-complement.
-/

/-- Parquet physical type of a leaf column
(`polars_parquet::parquet::schema::types::PhysicalType`). -/
inductive ParquetPhysicalType where
  | boolean
  | int32
  | int64
  | int96
  | float
  | double
  | byteArray
  | fixedLenByteArray (n : Nat)
deriving DecidableEq

/-- Rendering of a parquet physical type name, as used inside error
messages (the Debug form). -/
def ParquetPhysicalType.debugStr : ParquetPhysicalType → String
  | .boolean => "Boolean"
  | .int32 => "Int32"
  | .int64 => "Int64"
  | .int96 => "Int96"
  | .float => "Float"
  | .double => "Double"
  | .byteArray => "ByteArray"
  | .fixedLenByteArray n => "FixedLenByteArray(" ++ toString n ++ ")"

/-- The parquet leaf-type descriptor, of which the dispatcher only reads
`physical_type` (`PrimitiveType` in the source). -/
structure PrimitiveType where
  physical_type : ParquetPhysicalType
deriving DecidableEq

/-- Arrow integer key types (`arrow::datatypes::IntegerType`). -/
inductive IntegerType where
  | int8 | int16 | int32 | int64
  | uint8 | uint16 | uint32 | uint64
deriving DecidableEq

mutual

/-- The arrow logical type tree (`arrow::datatypes::ArrowDataType`),
restricted to the constructors the dispatcher distinguishes plus
representative unrecognized ones (`fixedSizeBinary`, `float16`, `union`)
that reach the closed-world catch-all branch. -/
inductive ArrowDataType where
  | null
  | boolean
  | int8 | int16 | int32 | int64
  | uint8 | uint16 | uint32 | uint64
  | float32 | float64
  | binaryView | utf8View
  | largeBinary | largeUtf8 | binary | utf8
  | dictionary (key : IntegerType) (value : ArrowDataType) (sorted : Bool)
  | list (inner : AField)
  | largeList (inner : AField)
  | fixedSizeList (inner : AField) (width : Nat)
  | struct (fields : List AField)
  | map (inner : AField) (sorted : Bool)
  | decimal (precision scale : Nat)
  | decimal256 (precision scale : Nat)
  | fixedSizeBinary (size : Nat)
  | float16
  | union

/-- An arrow field (`arrow::datatypes::Field`): name, logical type,
nullability and optional metadata (modelled by its set of keys). -/
inductive AField where
  | mk (name : String) (dtype : ArrowDataType) (is_nullable : Bool)
      (metadata : Option (List String))

end

/-- Field accessor for the logical type. -/
def AField.dtype : AField → ArrowDataType
  | .mk _ d _ _ => d

/-- Field accessor for nullability. -/
def AField.is_nullable : AField → Bool
  | .mk _ _ b _ => b

/-- Field accessor for the metadata keys. -/
def AField.metadata : AField → Option (List String)
  | .mk _ _ _ m => m

/-- Rendering of a logical type name for the catch-all error message; only
the head constructor is printed, which is all the claims about error
messages require.  The Debug instance itself is not part of the provided
source. -/
def ArrowDataType.debugName : ArrowDataType → String
  | .null => "Null"
  | .boolean => "Boolean"
  | .int8 => "Int8"
  | .int16 => "Int16"
  | .int32 => "Int32"
  | .int64 => "Int64"
  | .uint8 => "UInt8"
  | .uint16 => "UInt16"
  | .uint32 => "UInt32"
  | .uint64 => "UInt64"
  | .float32 => "Float32"
  | .float64 => "Float64"
  | .binaryView => "BinaryView"
  | .utf8View => "Utf8View"
  | .largeBinary => "LargeBinary"
  | .largeUtf8 => "LargeUtf8"
  | .binary => "Binary"
  | .utf8 => "Utf8"
  | .dictionary _ _ _ => "Dictionary"
  | .list _ => "List"
  | .largeList _ => "LargeList"
  | .fixedSizeList _ _ => "FixedSizeList"
  | .struct _ => "Struct"
  | .map _ _ => "Map"
  | .decimal _ _ => "Decimal"
  | .decimal256 _ _ => "Decimal256"
  | .fixedSizeBinary n => "FixedSizeBinary(" ++ toString n ++ ")"
  | .float16 => "Float16"
  | .union => "Union"

/-- Modelled from the spec: the metadata key marking a dictionary node as a
polars enum (`DTYPE_ENUM_VALUES`); only its identity matters. -/
def DTYPE_ENUM_VALUES : String := "_PL_ENUM_VALUES"

/-- Modelled from the spec: the metadata key marking a dictionary node as a
polars categorical (`DTYPE_CATEGORICAL`); only its identity matters. -/
def DTYPE_CATEGORICAL : String := "_PL_CATEGORICAL"

/-- `field.metadata.as_ref().is_none_or(|md| !md.contains_key(DTYPE_ENUM_VALUES)
&& !md.contains_key(DTYPE_CATEGORICAL))` from the dictionary branch. -/
def mdNoMarker : Option (List String) → Bool
  | none => true
  | some m => !(m.contains DTYPE_ENUM_VALUES) && !(m.contains DTYPE_CATEGORICAL)

/-- `matches!(value_type.as_ref(), ArrowDataType::Utf8View)`. -/
def isUtf8View : ArrowDataType → Bool
  | .utf8View => true
  | _ => false

/-- `matches!(key_type, IntegerType::UInt32)`. -/
def isUInt32Key : IntegerType → Bool
  | .uint32 => true
  | _ => false

/-- Nesting markers (`InitNested`), the path descriptors handed to the
page-level nested decoder. -/
inductive InitNested where
  | primitive (nullable : Bool)
  | list (nullable : Bool)
  | fixedSizeList (nullable : Bool) (width : Nat)
  | struct (nullable : Bool)
deriving DecidableEq

/-- The content tag of one `NestedState` level (`NestedContent`). -/
inductive NestedContent where
  | primitive | list | fixedSizeList | struct
deriving DecidableEq

/-- One per-level shape descriptor of a `NestedState`: content tag, length,
optional offsets and optional (mutable, not yet frozen) validity. -/
structure NestedEntry where
  content : NestedContent
  length : Nat
  offsets : Option (List Nat)
  validity : Option (List Bool)
deriving DecidableEq

/-- `NestedState`, innermost level first (see the representation note). -/
abbrev NestedState := List NestedEntry

/-- Per-level shape data carried by a leaf column, consumed by the
page-level nested decoder; innermost level first. -/
structure LevelInfo where
  length : Nat
  offsets : Option (List Nat)
  validity : Option (List Bool)
deriving DecidableEq

/-- The decoded raw payload of one leaf column, by physical shape. -/
inductive LeafValues where
  | ints (xs : List Int)
  | bools (xs : List Bool)
  | floats (bits : List Nat)
  | views (xs : List (List Nat))
  | bytes (buffer : List Nat)
  | dictE (keys : List Nat) (dictVals : List (List Nat))
deriving DecidableEq

/-- Modelled from the spec: a decompressed leaf-column stream
(`BasicDecompressor`), already reduced to what the out-of-scope page-level
decoder would extract from it: one shape descriptor per nesting level
(innermost first) and the raw leaf payload. -/
structure LeafColumn where
  levels : List LevelInfo
  values : LeafValues
deriving DecidableEq

/-- The opaque row filter, threaded unchanged through every call; its
application happens inside the out-of-scope page-level decoder. -/
abbrev RowFilter := Option (List Bool)

/-- A `PolarsResult` error value. -/
inductive PError where
  | computeError (msg : String)
  | notSupported (msg : String)
deriving DecidableEq

/-- Outcome of running a piece of the Rust code: a returned `Ok`, a
returned error, or a panic (assertion failure, `unwrap` on `None`,
`unreachable!`, out-of-bounds split). -/
inductive Outcome (α : Type) where
  | ok (a : α)
  | err (e : PError)
  | panicked (msg : String)
deriving DecidableEq

/-- Rust integer cast `as` to an unsigned width: keep the low `w` bits. -/
def wrapU (w : Nat) (x : Int) : Int := x % ((2 : Int) ^ w)

/-- Rust integer cast `as` to a signed width: keep the low `w` bits,
two's-complement signed. -/
def wrapS (w : Nat) (x : Int) : Int :=
  (x + (2 : Int) ^ (w - 1)) % (2 : Int) ^ w - (2 : Int) ^ (w - 1)

/-- The value conversion a `primitive::IntDecoder` applies to every stored
integer: `unit()` is the identity, `cast_as()` is a wrapping Rust `as`
cast, `cast_into()` widens `i32`/`i64` into `i128` (value-preserving), and
the two `Decimal256` closures map `x` through `i256(I256::new(x as i128))`
(value-preserving as well). -/
inductive IntConv where
  | unit
  | asI8 | asI16
  | asU8 | asU16 | asU32 | asU64
  | intoI128
  | i256FromInt
deriving DecidableEq

/-- Semantics of `IntConv` on the stored integer value. -/
def IntConv.apply : IntConv → Int → Int
  | .unit, x => x
  | .asI8, x => wrapS 8 x
  | .asI16, x => wrapS 16 x
  | .asU8, x => wrapU 8 x
  | .asU16, x => wrapU 16 x
  | .asU32, x => wrapU 32 x
  | .asU64, x => wrapU 64 x
  | .intoI128, x => x
  | .i256FromInt, x => x

/-- Which leaf value decoder the dispatcher hands to the page-level
decoder. -/
inductive DecoderKind where
  | nullDec
  | booleanDec
  | intDec (conv : IntConv)
  | floatDec
  | binviewDec
  | categoricalDec
  | fixedSizeBinaryDec (size : Nat)
deriving DecidableEq

/-- An arrow array value as reconstructed by the dispatcher. `castA` is
the (out-of-scope) cast of a decoded text array to the declared dictionary
type, values kept inline. -/
inductive ArrayValue where
  | nullA (len : Nat)
  | boolA (validity : Option (List Bool)) (values : List Bool)
  | numA (dtype : ArrowDataType) (validity : Option (List Bool)) (values : List Int)
  | floatA (dtype : ArrowDataType) (validity : Option (List Bool)) (bits : List Nat)
  | binA (dtype : ArrowDataType) (validity : Option (List Bool)) (values : List (List Nat))
  | fsbA (size : Nat) (validity : Option (List Bool)) (buffer : List Nat)
  | dictA (dtype : ArrowDataType) (validity : Option (List Bool)) (keys : List Nat)
      (dictVals : List (List Nat))
  | castA (target : ArrowDataType) (inner : ArrayValue)
  | listA (dtype : ArrowDataType) (offsets : Option (List Nat))
      (validity : Option (List Bool)) (child : ArrayValue)
  | mapA (dtype : ArrowDataType) (offsets : Option (List Nat))
      (validity : Option (List Bool)) (child : ArrayValue)
  | structA (dtype : ArrowDataType) (length : Nat) (children : List ArrayValue)
      (validity : Option (List Bool))

/-- Modelled from the spec: `freeze_validity` collapses a mutable validity
bitmap to its plain present/absent form; an all-set bitmap collapses to no
bitmap at all. -/
def freeze_validity (v : List Bool) : Option (List Bool) :=
  if v.all (fun b => b = true) then none else some v

/-- Big-endian two's-complement interpretation of a byte list, sign-extended
from its own width (the shared semantics of both decimal byte converters). -/
def beTwosComplement (bytes : List Nat) : Int :=
  match bytes with
  | [] => 0
  | b0 :: _ =>
    let u : Int := bytes.foldl (fun acc b => acc * 256 + (b : Int)) 0
    if 128 ≤ b0 then u - (256 : Int) ^ bytes.length else u

/-- Modelled from the spec: the 128-bit Decimal Byte Converter
(`convert_i128`, not under the provided source): big-endian
two's-complement bytes of width `n` (at most 16) to a signed 128-bit
value, sign-extending from the sign bit of the most significant stored
byte. -/
def convert_i128 (bytes : List Nat) (_n : Nat) : Int := beTwosComplement bytes

/-- Modelled from the spec: the dedicated 256-bit Decimal Byte Converter
(`convert_i256`, not under the provided source), same big-endian
two's-complement semantics for widths up to 32. -/
def convert_i256 (bytes : List Nat) : Int := beTwosComplement bytes

/-- Take `k` consecutive chunks of `n` elements off the front of `l`. -/
def chunksExactAux (n : Nat) : Nat → List Nat → List (List Nat)
  | 0, _ => []
  | k + 1, l => l.take n :: chunksExactAux n k (l.drop n)

/-- `chunks_exact(size)` over a flat buffer: the consecutive complete
chunks of `size` elements, any shorter remainder dropped. -/
def chunksExact (n : Nat) (l : List Nat) : List (List Nat) :=
  chunksExactAux n (l.length / n) l

mutual

/-- Modelled from the spec: the schema-driven leaf-column count of a
subtree (`n_columns`, not under the provided source): primitive leaves and
dictionaries count one, list-likes count their single child, structs sum
their children. -/
def n_columns : ArrowDataType → Nat
  | .list f => n_columns_field f
  | .largeList f => n_columns_field f
  | .fixedSizeList f _ => n_columns_field f
  | .map f _ => n_columns_field f
  | .struct fs => n_columns_fields fs
  | _ => 1

/-- Leaf-column count of one field (its type subtree). -/
def n_columns_field : AField → Nat
  | .mk _ d _ _ => n_columns d

/-- Leaf-column count of a list of fields. -/
def n_columns_fields : List AField → Nat
  | [] => 0
  | f :: fs => n_columns_field f + n_columns_fields fs

end

/-- The `NestedState` entry a nesting marker produces from the page-level
shape data of its level (`primitive` markers produce no entry: the leaf
level is returned as the array itself). -/
def markerEntry (m : InitNested) (lv : LevelInfo) : Option NestedEntry :=
  match m with
  | .primitive _ => none
  | .list _ => some ⟨.list, lv.length, lv.offsets, lv.validity⟩
  | .fixedSizeList _ _ => some ⟨.fixedSizeList, lv.length, lv.offsets, lv.validity⟩
  | .struct _ => some ⟨.struct, lv.length, lv.offsets, lv.validity⟩

/-- Application of a leaf value decoder to the decoded leaf payload plus
the leaf level's validity, producing the flat leaf array. -/
def applyDecoder (dec : DecoderKind) (dtype : ArrowDataType) (lv : LevelInfo)
    (vals : LeafValues) : Outcome ArrayValue :=
  match dec, vals with
  | .nullDec, _ => .ok (.nullA lv.length)
  | .booleanDec, .bools xs => .ok (.boolA lv.validity xs)
  | .intDec conv, .ints xs => .ok (.numA dtype lv.validity (xs.map conv.apply))
  | .floatDec, .floats xs => .ok (.floatA dtype lv.validity xs)
  | .binviewDec, .views xs => .ok (.binA dtype lv.validity xs)
  | .fixedSizeBinaryDec n, .bytes buf => .ok (.fsbA n lv.validity buf)
  | .categoricalDec, .dictE keys dictVals => .ok (.dictA dtype lv.validity keys dictVals)
  | _, _ => .err (.computeError "page decoder: leaf payload does not match the decoder")

/-- Modelled from the spec: the out-of-scope page-level nested decoder
(`PageNestedDecoder::new(..).collect_n(filter)`): it walks the nesting
markers in lockstep with the per-level shape data of the column, emits one
`NestedState` entry per non-primitive level, and decodes the leaf payload
with the chosen leaf decoder.  Filtering already happened upstream of the
modelled column data, so the filter is threaded but unused. -/
def pageDecode (col : LeafColumn) (dtype : ArrowDataType) (dec : DecoderKind)
    (init : List InitNested) (_filter : RowFilter) : Outcome (NestedState × ArrayValue) :=
  if init.length = col.levels.length then
    match col.levels with
    | [] => .err (.computeError "page decoder: no levels")
    | leafLv :: _ =>
      match applyDecoder dec dtype leafLv col.values with
      | .ok arr =>
          .ok ((init.zip col.levels).filterMap (fun p => markerEntry p.1 p.2), arr)
      | .err e => .err e
      | .panicked m => .panicked m
  else .err (.computeError "page decoder: level count mismatch")

/-- Modelled from the spec: the list/fixed-size-list Container Array
Builder (`create_list`, not under the provided source): consume the last
`NestedState` entry as this level's offsets and validity and wrap the
child; for a fixed-size list the offsets are implicit in the width. -/
def create_list (dtype : ArrowDataType) (nested : NestedState) (child : ArrayValue) :
    NestedState × ArrayValue :=
  match nested with
  | [] => ([], .listA dtype none none child)
  | e :: rest =>
    match dtype with
    | .fixedSizeList _ _ => (rest, .listA dtype none e.validity child)
    | _ => (rest, .listA dtype e.offsets e.validity child)

/-- Modelled from the spec: the map Container Array Builder (`create_map`,
not under the provided source), the list builder with a map-shaped tag. -/
def create_map (dtype : ArrowDataType) (nested : NestedState) (child : ArrayValue) :
    NestedState × ArrayValue :=
  match nested with
  | [] => ([], .mapA dtype none none child)
  | e :: rest => (rest, .mapA dtype e.offsets e.validity child)

/-- The panic message of `Option::unwrap` on `None`. -/
def unwrapMsg : String := "called Option unwrap on a None value"

/-- The panic message of an out-of-bounds `split_off` (or the underflow of
`len - n` computing its index). -/
def splitMsg : String := "split_off out of bounds"

mutual

/-- Shallow embedding of `columns_to_iter_recursive` (nested.rs lines
13-491).  `debug` embeds `#[cfg(debug_assertions)]`; stacks are reversed
lists (head = Rust vector end). -/
def columns_to_iter_recursive (debug : Bool) (columns : List LeafColumn)
    (types : List PrimitiveType) (field : AField) (init : List InitNested)
    (filter : RowFilter) : Outcome (NestedState × ArrayValue) :=
  match field with
  | .mk _name dtype is_nullable metadata =>
    match dtype with
    | .null =>
      -- physical type is i32; `types.pop()` discarded, `columns.pop().unwrap()`
      let init1 := InitNested.primitive is_nullable :: init
      match columns with
      | [] => .panicked unwrapMsg
      | c :: _ => pageDecode c .null .nullDec init1 filter
    | .boolean =>
      let init1 := InitNested.primitive is_nullable :: init
      match columns with
      | [] => .panicked unwrapMsg
      | c :: _ => pageDecode c .boolean .booleanDec init1 filter
    | .int8 =>
      let init1 := InitNested.primitive is_nullable :: init
      match columns with
      | [] => .panicked unwrapMsg
      | c :: _ => pageDecode c .int8 (.intDec .asI8) init1 filter
    | .int16 =>
      let init1 := InitNested.primitive is_nullable :: init
      match columns with
      | [] => .panicked unwrapMsg
      | c :: _ => pageDecode c .int16 (.intDec .asI16) init1 filter
    | .int32 =>
      let init1 := InitNested.primitive is_nullable :: init
      match columns with
      | [] => .panicked unwrapMsg
      | c :: _ => pageDecode c .int32 (.intDec .unit) init1 filter
    | .int64 =>
      let init1 := InitNested.primitive is_nullable :: init
      match columns with
      | [] => .panicked unwrapMsg
      | c :: _ => pageDecode c .int64 (.intDec .unit) init1 filter
    | .uint8 =>
      let init1 := InitNested.primitive is_nullable :: init
      match columns with
      | [] => .panicked unwrapMsg
      | c :: _ => pageDecode c .uint8 (.intDec .asU8) init1 filter
    | .uint16 =>
      let init1 := InitNested.primitive is_nullable :: init
      match columns with
      | [] => .panicked unwrapMsg
      | c :: _ => pageDecode c .uint16 (.intDec .asU16) init1 filter
    | .uint32 =>
      -- the one primitive branch that inspects the popped physical type
      let init1 := InitNested.primitive is_nullable :: init
      match types with
      | [] => .panicked unwrapMsg
      | t :: _ =>
        match t.physical_type with
        | .int32 =>
          match columns with
          | [] => .panicked unwrapMsg
          | c :: _ => pageDecode c .uint32 (.intDec .asU32) init1 filter
        | .int64 =>
          -- some implementations of parquet write arrow u32 into i64
          match columns with
          | [] => .panicked unwrapMsg
          | c :: _ => pageDecode c .uint32 (.intDec .asU32) init1 filter
        | other =>
          .err (.computeError
            ("deserializing UInt32 from " ++ other.debugStr ++ " parquet"))
    | .uint64 =>
      let init1 := InitNested.primitive is_nullable :: init
      match columns with
      | [] => .panicked unwrapMsg
      | c :: _ => pageDecode c .uint64 (.intDec .asU64) init1 filter
    | .float32 =>
      let init1 := InitNested.primitive is_nullable :: init
      match columns with
      | [] => .panicked unwrapMsg
      | c :: _ => pageDecode c .float32 .floatDec init1 filter
    | .float64 =>
      let init1 := InitNested.primitive is_nullable :: init
      match columns with
      | [] => .panicked unwrapMsg
      | c :: _ => pageDecode c .float64 .floatDec init1 filter
    | .binaryView =>
      let init1 := InitNested.primitive is_nullable :: init
      match columns with
      | [] => .panicked unwrapMsg
      | c :: _ => pageDecode c .binaryView .binviewDec init1 filter
    | .utf8View =>
      let init1 := InitNested.primitive is_nullable :: init
      match columns with
      | [] => .panicked unwrapMsg
      | c :: _ => pageDecode c .utf8View .binviewDec init1 filter
    -- These are all converted to View variants before.
    | .largeBinary => .panicked "internal error: entered unreachable code"
    | .largeUtf8 => .panicked "internal error: entered unreachable code"
    | .binary => .panicked "internal error: entered unreachable code"
    | .utf8 => .panicked "internal error: entered unreachable code"
    | .dictionary key value srt =>
      if isUtf8View value then
        let init1 := InitNested.primitive is_nullable :: init
        if mdNoMarker metadata then
          match columns with
          | [] => .panicked unwrapMsg
          | c :: _ =>
            match pageDecode c .utf8View .binviewDec init1 filter with
            | .ok (nested, arr) =>
                .ok (nested, .castA (.dictionary key value srt) arr)
            | .err e => .err e
            | .panicked m => .panicked m
        else
          if isUInt32Key key then
            match columns with
            | [] => .panicked unwrapMsg
            | c :: _ => pageDecode c (.dictionary key value srt) .categoricalDec init1 filter
          else .panicked "assertion failed: matches key_type IntegerType UInt32"
      else .panicked "assertion failed: matches value_type ArrowDataType Utf8View"
    | .list inner =>
      let init1 := InitNested.list is_nullable :: init
      match columns_to_iter_recursive debug columns types inner init1 filter with
      | .ok (nested, array) =>
          let r := create_list (.list inner) nested array
          .ok r
      | .err e => .err e
      | .panicked m => .panicked m
    | .largeList inner =>
      let init1 := InitNested.list is_nullable :: init
      match columns_to_iter_recursive debug columns types inner init1 filter with
      | .ok (nested, array) =>
          let r := create_list (.largeList inner) nested array
          .ok r
      | .err e => .err e
      | .panicked m => .panicked m
    | .fixedSizeList inner width =>
      let init1 := InitNested.fixedSizeList is_nullable width :: init
      match columns_to_iter_recursive debug columns types inner init1 filter with
      | .ok (nested, array) =>
          let r := create_list (.fixedSizeList inner width) nested array
          .ok r
      | .err e => .err e
      | .panicked m => .panicked m
    | .decimal p s =>
      let init1 := InitNested.primitive is_nullable :: init
      match types with
      | [] => .panicked unwrapMsg
      | t :: _ =>
        match t.physical_type with
        | .int32 =>
          match columns with
          | [] => .panicked unwrapMsg
          | c :: _ => pageDecode c (.decimal p s) (.intDec .intoI128) init1 filter
        | .int64 =>
          match columns with
          | [] => .panicked unwrapMsg
          | c :: _ => pageDecode c (.decimal p s) (.intDec .intoI128) init1 filter
        | .fixedLenByteArray n =>
          if n > 16 then
            .err (.computeError
              ("Can not decode Decimal128 type from FixedLenByteArray of len "
                ++ toString n))
          else
            match columns with
            | [] => .panicked unwrapMsg
            | c :: _ =>
              match pageDecode c (.fixedSizeBinary n) (.fixedSizeBinaryDec n) init1 filter with
              | .ok (nested, .fsbA _ validity buffer) =>
                  -- convert the fixed length byte array to Decimal
                  let values := (chunksExact n buffer).map (fun v => convert_i128 v n)
                  .ok (nested, .numA (.decimal p s) validity values)
              | .ok _ =>
                  -- statically impossible: the fixed-size-binary decoder
                  -- only ever yields a fixed-size-binary array
                  .err (.computeError "expected FixedSizeBinary")
              | .err e => .err e
              | .panicked m => .panicked m
        | other =>
          .err (.computeError
            ("Deserializing type for Decimal " ++ other.debugStr ++ " from parquet"))
    | .decimal256 p s =>
      let init1 := InitNested.primitive is_nullable :: init
      match types with
      | [] => .panicked unwrapMsg
      | t :: _ =>
        match t.physical_type with
        | .int32 =>
          match columns with
          | [] => .panicked unwrapMsg
          | c :: _ => pageDecode c (.decimal256 p s) (.intDec .i256FromInt) init1 filter
        | .int64 =>
          match columns with
          | [] => .panicked unwrapMsg
          | c :: _ => pageDecode c (.decimal256 p s) (.intDec .i256FromInt) init1 filter
        | .fixedLenByteArray size =>
          if size ≤ 16 then
            match columns with
            | [] => .panicked unwrapMsg
            | c :: _ =>
              match pageDecode c (.fixedSizeBinary size) (.fixedSizeBinaryDec size) init1 filter with
              | .ok (nested, .fsbA _ validity buffer) =>
                  let values := (chunksExact size buffer).map
                    (fun v => convert_i128 v size)
                  .ok (nested, .numA (.decimal256 p s) validity values)
              | .ok _ => .err (.computeError "expected FixedSizeBinary")
              | .err e => .err e
              | .panicked m => .panicked m
          else if size ≤ 32 then
            match columns with
            | [] => .panicked unwrapMsg
            | c :: _ =>
              match pageDecode c (.fixedSizeBinary size) (.fixedSizeBinaryDec size) init1 filter with
              | .ok (nested, .fsbA _ validity buffer) =>
                  let values := (chunksExact size buffer).map convert_i256
                  .ok (nested, .numA (.decimal256 p s) validity values)
              | .ok _ => .err (.computeError "expected FixedSizeBinary")
              | .err e => .err e
              | .panicked m => .panicked m
          else
            .err (.computeError
              ("Can not decode Decimal256 type from FixedLenByteArray of len "
                ++ toString size))
        | other =>
          .err (.computeError
            ("Deserializing type for Decimal " ++ other.debugStr ++ " from parquet"))
    | .struct fields =>
      -- back to front: constantly split off the end of the stacks
      match struct_fields_loop debug columns types is_nullable fields init filter with
      | .ok (arrs, length, structValidity, nestedOut) =>
          .ok (nestedOut,
            .structA (.struct fields) length arrs (structValidity.bind freeze_validity))
      | .err e => .err e
      | .panicked m => .panicked m
    | .map inner _srt =>
      let init1 := InitNested.list is_nullable :: init
      match columns_to_iter_recursive debug columns types inner init1 filter with
      | .ok (nested, array) =>
          let r := create_map (.map inner _srt) nested array
          .ok r
      | .err e => .err e
      | .panicked m => .panicked m
    | other =>
      .err (.computeError
        ("Deserializing type " ++ other.debugName ++ " from parquet"))

/-- The struct-member loop of `columns_to_iter_recursive` (nested.rs lines
412-459), as structural recursion on the declared field list: the tail
(the later-declared fields) is consumed first — matching the source's
reverse iteration with tail splits — and the head's array is prepended,
which is the source's collect-then-reverse.  Returns the declared-order
child arrays, the authoritative length and (unfrozen) validity popped from
the first-processed field, and the remaining `NestedState` of that field. -/
def struct_fields_loop (debug : Bool) (columns : List LeafColumn)
    (types : List PrimitiveType) (structNullable : Bool) (fields : List AField)
    (init : List InitNested) (filter : RowFilter) :
    Outcome (List ArrayValue × Nat × Option (List Bool) × NestedState) :=
  match fields with
  | [] => .err (.notSupported "Struct has zero fields")
  | [f] =>
    -- the structurally last field, processed first
    let n := n_columns_field f
    if n ≤ columns.length ∧ n ≤ types.length then
      match columns_to_iter_recursive debug (columns.take n) (types.take n) f
          (InitNested.struct structNullable :: init) filter with
      | .ok (nestedF, arr) =>
          if debug then
            match nestedF with
            | [] => .panicked unwrapMsg
            | e :: rest =>
              if e.content = NestedContent.struct then
                .ok ([arr], e.length, e.validity, rest)
              else .panicked "debug assertion failed: matches nested last NestedContent Struct"
          else
            match nestedF with
            | [] => .panicked unwrapMsg
            | e :: rest => .ok ([arr], e.length, e.validity, rest)
      | .err e => .err e
      | .panicked m => .panicked m
    else .panicked splitMsg
  | f :: rest =>
    match struct_fields_loop debug columns types structNullable rest init filter with
    | .ok (arrs, length, structValidity, nestedOut) =>
      let consumed := n_columns_fields rest
      let cols1 := columns.drop consumed
      let types1 := types.drop consumed
      let n := n_columns_field f
      if n ≤ cols1.length ∧ n ≤ types1.length then
        match columns_to_iter_recursive debug (cols1.take n) (types1.take n) f
            (InitNested.struct structNullable :: init) filter with
        | .ok (nestedF, arr) =>
            if debug then
              match nestedF with
              | [] => .panicked unwrapMsg
              | e :: _ =>
                if e.content = NestedContent.struct then
                  if e.validity.bind freeze_validity
                      = structValidity.bind freeze_validity then
                    .ok (arr :: arrs, length, structValidity, nestedOut)
                  else .panicked "debug assertion failed: struct member validity differs"
                else .panicked "debug assertion failed: matches nested last NestedContent Struct"
            else .ok (arr :: arrs, length, structValidity, nestedOut)
        | .err e => .err e
        | .panicked m => .panicked m
      else .panicked splitMsg
    | .err e => .err e
    | .panicked m => .panicked m

end

/-! ## Claim theorems -/

/-- Widening `i32`/`i64` storage into the 128-bit decimal representation
is value-preserving. -/
theorem IntConv.apply_intoI128 : IntConv.apply .intoI128 = id := rfl

/-- The `Decimal256` integer closures are value-preserving. -/
theorem IntConv.apply_i256FromInt : IntConv.apply .i256FromInt = id := rfl

/-- The primitive leaf kinds whose dispatcher branch discards the popped
physical-type descriptor without inspecting it (every primitive leaf
except unsigned 32-bit integers and the decimal types). -/
def uncheckedPrimitive : ArrowDataType → Bool
  | .null | .boolean
  | .int8 | .int16 | .int32 | .int64
  | .uint8 | .uint16 | .uint64
  | .float32 | .float64
  | .binaryView | .utf8View => true
  | _ => false

/-- C7: a struct schema node with zero members yields the typed
not-supported error, for any state of the leaf-stream and leaf-type
stacks, instead of panicking on out-of-bounds stack access. -/
theorem zero_field_struct_not_supported (debug : Bool) (columns : List LeafColumn)
    (types : List PrimitiveType) (nm : String) (nb : Bool) (md : Option (List String))
    (init : List InitNested) (filter : RowFilter) :
    columns_to_iter_recursive debug columns types (.mk nm (.struct []) nb md) init filter
      = .err (.notSupported "Struct has zero fields") := rfl

/-- C8: every logical type outside the dispatcher's explicit cases (in
this embedding: fixed-size binary, half float, union) reaches the
closed-world catch-all and returns a hard error naming the offending
type. -/
theorem unrecognized_type_error (debug : Bool) (columns : List LeafColumn)
    (types : List PrimitiveType) (nm : String) (nb : Bool) (md : Option (List String))
    (init : List InitNested) (filter : RowFilter) :
    (∀ n : Nat,
      columns_to_iter_recursive debug columns types (.mk nm (.fixedSizeBinary n) nb md) init filter
        = .err (.computeError
            ("Deserializing type " ++ (ArrowDataType.fixedSizeBinary n).debugName
              ++ " from parquet"))) ∧
    columns_to_iter_recursive debug columns types (.mk nm .float16 nb md) init filter
      = .err (.computeError
          ("Deserializing type " ++ ArrowDataType.float16.debugName ++ " from parquet")) ∧
    columns_to_iter_recursive debug columns types (.mk nm .union nb md) init filter
      = .err (.computeError
          ("Deserializing type " ++ ArrowDataType.union.debugName ++ " from parquet")) :=
  ⟨fun _ => rfl, rfl, rfl⟩

/-- C9: a dictionary node whose declared value type is not view-encoded
text panics on the value-type assertion before any decoding, whatever the
metadata, key type or stack state; there is no returned-error path. -/
theorem dictionary_non_utf8view_value_asserts (debug : Bool)
    (columns : List LeafColumn) (types : List PrimitiveType)
    (nm : String) (nb : Bool) (md : Option (List String))
    (key : IntegerType) (value : ArrowDataType) (srt : Bool)
    (init : List InitNested) (filter : RowFilter)
    (h : isUtf8View value = false) :
    columns_to_iter_recursive debug columns types
        (.mk nm (.dictionary key value srt) nb md) init filter
      = .panicked "assertion failed: matches value_type ArrowDataType Utf8View" := by
  simp only [columns_to_iter_recursive, h, Bool.false_eq_true, if_false]

/-- C9 witness: a boolean-valued dictionary panics on the value-type
assertion. -/
theorem dictionary_non_utf8view_value_asserts_witness :
    isUtf8View .boolean = false ∧
    columns_to_iter_recursive false [] [] (.mk "d" (.dictionary .uint32 .boolean false) true none)
        [] none
      = .panicked "assertion failed: matches value_type ArrowDataType Utf8View" :=
  ⟨rfl, dictionary_non_utf8view_value_asserts false [] [] "d" true none .uint32 .boolean false
    [] none rfl⟩

/-- C10: for every primitive leaf kind other than unsigned 32-bit and the
decimals, the dispatcher discards the popped physical-type descriptor
without any physical-vs-logical compatibility check: the result does not
depend on the leaf-type stack at all, so no physical-mismatch error can be
returned for those kinds. -/
theorem unchecked_primitive_ignores_physical (debug : Bool)
    (columns : List LeafColumn) (nm : String) (nb : Bool) (md : Option (List String))
    (init : List InitNested) (filter : RowFilter) (d : ArrowDataType)
    (h : uncheckedPrimitive d = true)
    (types1 types2 : List PrimitiveType) :
    columns_to_iter_recursive debug columns types1 (.mk nm d nb md) init filter
      = columns_to_iter_recursive debug columns types2 (.mk nm d nb md) init filter := by
  cases d <;> first
    | rfl
    | exact Bool.noConfusion h

/-- C10 witness: an int8 leaf decodes identically with two different
leaf-type stacks. -/
theorem unchecked_primitive_ignores_physical_witness :
    uncheckedPrimitive .int8 = true ∧
    columns_to_iter_recursive false [⟨[⟨1, none, none⟩], .ints [5]⟩] [⟨.boolean⟩]
        (.mk "x" .int8 true none) [] none
      = columns_to_iter_recursive false [⟨[⟨1, none, none⟩], .ints [5]⟩] [⟨.int32⟩]
        (.mk "x" .int8 true none) [] none :=
  ⟨rfl, unchecked_primitive_ignores_physical false [⟨[⟨1, none, none⟩], .ints [5]⟩]
    "x" true none [] none .int8 rfl [⟨.boolean⟩] [⟨.int32⟩]⟩

/-- C4: an unsigned 32-bit leaf succeeds exactly on a 32-bit or 64-bit
signed-integer physical type, by a value-level wrapping cast into u32; any
other physical type returns a hard error naming both the logical type
(UInt32) and the physical type, and no bytes are reinterpreted. -/
theorem uint32_physical_dispatch (debug : Bool) (nm : String) (nb : Bool)
    (md : Option (List String)) (t : PrimitiveType) (ts : List PrimitiveType)
    (c : LeafColumn) (cs : List LeafColumn) (init : List InitNested)
    (lv : LevelInfo) (lvs : List LevelInfo) (xs : List Int) (filter : RowFilter) :
    ((t.physical_type = .int32 ∨ t.physical_type = .int64) →
      c.levels = lv :: lvs → c.values = .ints xs → init.length = lvs.length →
      columns_to_iter_recursive debug (c :: cs) (t :: ts) (.mk nm .uint32 nb md) init filter
        = .ok ((init.zip lvs).filterMap (fun p => markerEntry p.1 p.2),
            .numA .uint32 lv.validity (xs.map (wrapU 32))))
    ∧
    (t.physical_type ≠ .int32 → t.physical_type ≠ .int64 →
      ∀ columns : List LeafColumn,
      columns_to_iter_recursive debug columns (t :: ts) (.mk nm .uint32 nb md) init filter
        = .err (.computeError
            ("deserializing UInt32 from " ++ t.physical_type.debugStr ++ " parquet"))) := by
  obtain ⟨pt⟩ := t
  obtain ⟨clv, cvl⟩ := c
  constructor
  · rintro (h | h) hlev hval hlen <;>
      cases h <;> cases hlev <;> cases hval <;>
      simp [columns_to_iter_recursive, pageDecode, applyDecoder, hlen, IntConv.apply,
        markerEntry]
  · intro h32 h64 columns
    cases pt <;> simp_all [columns_to_iter_recursive]

/-- C4 witness: u32 read from int64 storage wraps the value; u32 declared
over boolean storage errors naming both types. -/
theorem uint32_physical_dispatch_witness :
    ((PrimitiveType.mk .int64).physical_type = .int32 ∨
      (PrimitiveType.mk .int64).physical_type = .int64) ∧
    columns_to_iter_recursive false [⟨[⟨2, none, none⟩], .ints [7, -1]⟩] [⟨.int64⟩]
        (.mk "u" .uint32 true none) [] none
      = .ok ([], .numA .uint32 none [7, 4294967295]) ∧
    columns_to_iter_recursive false [] [⟨.boolean⟩] (.mk "u" .uint32 true none) [] none
      = .err (.computeError "deserializing UInt32 from Boolean parquet") := by
  refine ⟨Or.inr rfl, ?_, ?_⟩
  · have h := (uint32_physical_dispatch false "u" true none ⟨.int64⟩ []
      ⟨[⟨2, none, none⟩], .ints [7, -1]⟩ [] [] ⟨2, none, none⟩ [] [7, -1] none).1
      (Or.inr rfl) rfl rfl rfl
    rw [h]; rfl
  · exact (uint32_physical_dispatch false "u" true none ⟨.boolean⟩ []
      ⟨[], .ints []⟩ [] [] ⟨0, none, none⟩ [] [] none).2
      (by simp) (by simp) []

/-- C5: a dictionary node without categorical/enum metadata always decodes
as view-encoded text and casts to the declared dictionary type, whatever
the declared key width; with such metadata it decodes through the
categorical decoder, and a key type other than unsigned 32-bit panics on
the key-width assertion rather than returning an error. -/
theorem dictionary_metadata_dispatch (debug : Bool) (nm : String) (nb : Bool)
    (md : Option (List String)) (key : IntegerType) (srt : Bool)
    (types : List PrimitiveType) (c : LeafColumn) (cs : List LeafColumn)
    (init : List InitNested) (lv : LevelInfo) (lvs : List LevelInfo)
    (filter : RowFilter) :
    (∀ vs : List (List Nat), mdNoMarker md = true →
      c.levels = lv :: lvs → c.values = .views vs → init.length = lvs.length →
      columns_to_iter_recursive debug (c :: cs) types
          (.mk nm (.dictionary key .utf8View srt) nb md) init filter
        = .ok ((init.zip lvs).filterMap (fun q => markerEntry q.1 q.2),
            .castA (.dictionary key .utf8View srt) (.binA .utf8View lv.validity vs)))
    ∧
    (mdNoMarker md = false → isUInt32Key key = false →
      ∀ (columns : List LeafColumn) (types2 : List PrimitiveType),
      columns_to_iter_recursive debug columns types2
          (.mk nm (.dictionary key .utf8View srt) nb md) init filter
        = .panicked "assertion failed: matches key_type IntegerType UInt32")
    ∧
    (∀ (ks : List Nat) (dvs : List (List Nat)), mdNoMarker md = false →
      c.levels = lv :: lvs → c.values = .dictE ks dvs → init.length = lvs.length →
      columns_to_iter_recursive debug (c :: cs) types
          (.mk nm (.dictionary .uint32 .utf8View srt) nb md) init filter
        = .ok ((init.zip lvs).filterMap (fun q => markerEntry q.1 q.2),
            .dictA (.dictionary .uint32 .utf8View srt) lv.validity ks dvs)) := by
  obtain ⟨clv, cvl⟩ := c
  refine ⟨?_, ?_, ?_⟩
  · rintro vs hmd hlev hval hlen
    cases hlev; cases hval
    simp [columns_to_iter_recursive, pageDecode, applyDecoder, hmd, hlen, markerEntry,
      isUtf8View]
  · intro hmd hkey columns types2
    simp [columns_to_iter_recursive, hmd, hkey, isUtf8View]
  · rintro ks dvs hmd hlev hval hlen
    cases hlev; cases hval
    simp [columns_to_iter_recursive, pageDecode, applyDecoder, hmd, hlen, markerEntry,
      isUtf8View, isUInt32Key]

/-- C5 witness: the three dictionary paths at concrete inputs — plain text
then cast with an int8 key, the key-width assertion panic, and the
categorical decode. -/
theorem dictionary_metadata_dispatch_witness :
    (mdNoMarker (some ["other"]) = true ∧
      columns_to_iter_recursive false [⟨[⟨1, none, none⟩], .views [[65]]⟩] []
          (.mk "d" (.dictionary .int8 .utf8View false) true (some ["other"])) [] none
        = .ok ([], .castA (.dictionary .int8 .utf8View false)
            (.binA .utf8View none [[65]])))
    ∧
    (mdNoMarker (some [DTYPE_CATEGORICAL]) = false ∧
      columns_to_iter_recursive false [] []
          (.mk "d" (.dictionary .int8 .utf8View false) true (some [DTYPE_CATEGORICAL])) [] none
        = .panicked "assertion failed: matches key_type IntegerType UInt32")
    ∧
    (mdNoMarker (some [DTYPE_ENUM_VALUES]) = false ∧
      columns_to_iter_recursive false [⟨[⟨1, none, none⟩], .dictE [0] [[66]]⟩] []
          (.mk "d" (.dictionary .uint32 .utf8View false) true (some [DTYPE_ENUM_VALUES])) [] none
        = .ok ([], .dictA (.dictionary .uint32 .utf8View false) none [0] [[66]])) := by
  refine ⟨⟨rfl, ?_⟩, ⟨rfl, ?_⟩, ⟨rfl, ?_⟩⟩
  · have h := (dictionary_metadata_dispatch false "d" true (some ["other"]) .int8 false
      [] ⟨[⟨1, none, none⟩], .views [[65]]⟩ [] [] ⟨1, none, none⟩ [] none).1
      [[65]] rfl rfl rfl rfl
    rw [h]; rfl
  · exact (dictionary_metadata_dispatch false "d" true (some [DTYPE_CATEGORICAL]) .int8 false
      [] ⟨[], .ints []⟩ [] [] ⟨0, none, none⟩ [] none).2.1 rfl rfl [] []
  · have h := (dictionary_metadata_dispatch false "d" true (some [DTYPE_ENUM_VALUES]) .uint32 false
      [] ⟨[⟨1, none, none⟩], .dictE [0] [[66]]⟩ [] [] ⟨1, none, none⟩ [] none).2.2
      [0] [[66]] rfl rfl rfl rfl
    rw [h]; rfl

/-- C2: reconstruction of a 128-bit decimal branches on the popped leaf
physical type: 32-bit and 64-bit signed-integer storage is widened
value-preservingly into the 128-bit representation; a fixed-length byte
array of width at most 16 is decoded as raw bytes whose fixed-width chunks
go through the sign-extending big-endian two's-complement converter, the
byte array's validity bitmap reused unchanged; width above 16 is a
width-overflow error, never a truncated value. -/
theorem decimal128_physical_branches (debug : Bool) (nm : String) (nb : Bool)
    (md : Option (List String)) (p s : Nat) (t : PrimitiveType)
    (ts : List PrimitiveType) (c : LeafColumn) (cs : List LeafColumn)
    (init : List InitNested) (lv : LevelInfo) (lvs : List LevelInfo)
    (filter : RowFilter) :
    (∀ xs : List Int, (t.physical_type = .int32 ∨ t.physical_type = .int64) →
      c.levels = lv :: lvs → c.values = .ints xs → init.length = lvs.length →
      columns_to_iter_recursive debug (c :: cs) (t :: ts)
          (.mk nm (.decimal p s) nb md) init filter
        = .ok ((init.zip lvs).filterMap (fun q => markerEntry q.1 q.2),
            .numA (.decimal p s) lv.validity xs))
    ∧
    (∀ (n : Nat) (buf : List Nat), t.physical_type = .fixedLenByteArray n → n ≤ 16 →
      c.levels = lv :: lvs → c.values = .bytes buf → init.length = lvs.length →
      columns_to_iter_recursive debug (c :: cs) (t :: ts)
          (.mk nm (.decimal p s) nb md) init filter
        = .ok ((init.zip lvs).filterMap (fun q => markerEntry q.1 q.2),
            .numA (.decimal p s) lv.validity
              ((chunksExact n buf).map (fun v => convert_i128 v n))))
    ∧
    (∀ n : Nat, t.physical_type = .fixedLenByteArray n → n > 16 →
      ∀ columns : List LeafColumn,
      columns_to_iter_recursive debug columns (t :: ts)
          (.mk nm (.decimal p s) nb md) init filter
        = .err (.computeError
            ("Can not decode Decimal128 type from FixedLenByteArray of len "
              ++ toString n))) := by
  obtain ⟨pt⟩ := t
  obtain ⟨clv, cvl⟩ := c
  refine ⟨?_, ?_, ?_⟩
  · rintro xs (h | h) hlev hval hlen <;> cases h <;> cases hlev <;> cases hval <;>
      simp [columns_to_iter_recursive, pageDecode, applyDecoder, hlen,
        IntConv.apply_intoI128, markerEntry]
  · rintro n buf h hle hlev hval hlen
    cases h; cases hlev; cases hval
    have hgt : ¬ n > 16 := by omega
    simp [columns_to_iter_recursive, pageDecode, applyDecoder, hlen, hgt, markerEntry]
  · rintro n h hgt columns
    cases h
    simp [columns_to_iter_recursive, hgt]

/-- C2 witness: a decimal128 from int64 storage keeps the value; from a
3-byte fixed-length byte array the chunks are sign-extended (0xFF0000
decodes to -65536) with the validity reused; width 17 errors. -/
theorem decimal128_physical_branches_witness :
    ((PrimitiveType.mk .int64).physical_type = .int32 ∨
      (PrimitiveType.mk .int64).physical_type = .int64) ∧
    columns_to_iter_recursive false [⟨[⟨1, none, none⟩], .ints [-42]⟩] [⟨.int64⟩]
        (.mk "d" (.decimal 10 2) true none) [] none
      = .ok ([], .numA (.decimal 10 2) none [-42]) ∧
    columns_to_iter_recursive false
        [⟨[⟨2, none, some [true, false]⟩], .bytes [255, 0, 0, 0, 0, 1]⟩]
        [⟨.fixedLenByteArray 3⟩] (.mk "d" (.decimal 10 2) true none) [] none
      = .ok ([], .numA (.decimal 10 2) (some [true, false]) [-65536, 1]) ∧
    columns_to_iter_recursive false [] [⟨.fixedLenByteArray 17⟩]
        (.mk "d" (.decimal 38 0) true none) [] none
      = .err (.computeError
          "Can not decode Decimal128 type from FixedLenByteArray of len 17") := by
  refine ⟨Or.inr rfl, ?_, ?_, ?_⟩
  · have h := (decimal128_physical_branches false "d" true none 10 2 ⟨.int64⟩ []
      ⟨[⟨1, none, none⟩], .ints [-42]⟩ [] [] ⟨1, none, none⟩ [] none).1
      [-42] (Or.inr rfl) rfl rfl rfl
    rw [h]; rfl
  · have h := (decimal128_physical_branches false "d" true none 10 2 ⟨.fixedLenByteArray 3⟩ []
      ⟨[⟨2, none, some [true, false]⟩], .bytes [255, 0, 0, 0, 0, 1]⟩ [] []
      ⟨2, none, some [true, false]⟩ [] none).2.1
      3 [255, 0, 0, 0, 0, 1] rfl (by omega) rfl rfl rfl
    rw [h]
    rfl
  · exact (decimal128_physical_branches false "d" true none 38 0 ⟨.fixedLenByteArray 17⟩ []
      ⟨[], .ints []⟩ [] [] ⟨0, none, none⟩ [] none).2.2 17 rfl (by omega) []

/-- C3: reconstruction of a 256-bit decimal has exactly three successful
physical-storage branches — 32/64-bit signed integers widened
value-preservingly; fixed-length byte arrays of width at most 16 through
the 128-bit byte converter (then sign-extended, value-preservingly, to 256
bits); widths 17 through 32 through the dedicated 256-bit converter — and
a fixed-length byte array wider than 32 is a width-overflow error, while
any remaining physical type is the decimal physical-mismatch error. -/
theorem decimal256_physical_branches (debug : Bool) (nm : String) (nb : Bool)
    (md : Option (List String)) (p s : Nat) (t : PrimitiveType)
    (ts : List PrimitiveType) (c : LeafColumn) (cs : List LeafColumn)
    (init : List InitNested) (lv : LevelInfo) (lvs : List LevelInfo)
    (filter : RowFilter) :
    (∀ xs : List Int, (t.physical_type = .int32 ∨ t.physical_type = .int64) →
      c.levels = lv :: lvs → c.values = .ints xs → init.length = lvs.length →
      columns_to_iter_recursive debug (c :: cs) (t :: ts)
          (.mk nm (.decimal256 p s) nb md) init filter
        = .ok ((init.zip lvs).filterMap (fun q => markerEntry q.1 q.2),
            .numA (.decimal256 p s) lv.validity xs))
    ∧
    (∀ (n : Nat) (buf : List Nat), t.physical_type = .fixedLenByteArray n → n ≤ 16 →
      c.levels = lv :: lvs → c.values = .bytes buf → init.length = lvs.length →
      columns_to_iter_recursive debug (c :: cs) (t :: ts)
          (.mk nm (.decimal256 p s) nb md) init filter
        = .ok ((init.zip lvs).filterMap (fun q => markerEntry q.1 q.2),
            .numA (.decimal256 p s) lv.validity
              ((chunksExact n buf).map (fun v => convert_i128 v n))))
    ∧
    (∀ (n : Nat) (buf : List Nat), t.physical_type = .fixedLenByteArray n →
      16 < n → n ≤ 32 →
      c.levels = lv :: lvs → c.values = .bytes buf → init.length = lvs.length →
      columns_to_iter_recursive debug (c :: cs) (t :: ts)
          (.mk nm (.decimal256 p s) nb md) init filter
        = .ok ((init.zip lvs).filterMap (fun q => markerEntry q.1 q.2),
            .numA (.decimal256 p s) lv.validity ((chunksExact n buf).map convert_i256)))
    ∧
    (∀ n : Nat, t.physical_type = .fixedLenByteArray n → n > 32 →
      ∀ columns : List LeafColumn,
      columns_to_iter_recursive debug columns (t :: ts)
          (.mk nm (.decimal256 p s) nb md) init filter
        = .err (.computeError
            ("Can not decode Decimal256 type from FixedLenByteArray of len "
              ++ toString n)))
    ∧
    (t.physical_type ≠ .int32 → t.physical_type ≠ .int64 →
      (∀ n : Nat, t.physical_type ≠ .fixedLenByteArray n) →
      ∀ columns : List LeafColumn,
      columns_to_iter_recursive debug columns (t :: ts)
          (.mk nm (.decimal256 p s) nb md) init filter
        = .err (.computeError
            ("Deserializing type for Decimal " ++ t.physical_type.debugStr
              ++ " from parquet"))) := by
  obtain ⟨pt⟩ := t
  obtain ⟨clv, cvl⟩ := c
  refine ⟨?_, ?_, ?_, ?_, ?_⟩
  · rintro xs (h | h) hlev hval hlen <;> cases h <;> cases hlev <;> cases hval <;>
      simp [columns_to_iter_recursive, pageDecode, applyDecoder, hlen,
        IntConv.apply_i256FromInt, markerEntry]
  · rintro n buf h hle hlev hval hlen
    cases h; cases hlev; cases hval
    simp [columns_to_iter_recursive, pageDecode, applyDecoder, hlen, hle, markerEntry]
  · rintro n buf h hgt hle hlev hval hlen
    cases h; cases hlev; cases hval
    have h16 : ¬ n ≤ 16 := by omega
    simp [columns_to_iter_recursive, pageDecode, applyDecoder, hlen, h16, hle, markerEntry]
  · rintro n h hgt columns
    cases h
    have h16 : ¬ n ≤ 16 := by omega
    have h32 : ¬ n ≤ 32 := by omega
    simp [columns_to_iter_recursive, h16, h32]
  · intro h32 h64 hfl columns
    cases pt
    case fixedLenByteArray n => exact absurd rfl (hfl n)
    all_goals simp_all [columns_to_iter_recursive]

/-- C3 witness: decimal256 from int32 keeps the value; a 2-byte array goes
through the 128-bit converter; a 17-byte array goes through the 256-bit
converter; width 33 errors; int96 storage is the mismatch error. -/
theorem decimal256_physical_branches_witness :
    ((PrimitiveType.mk .int32).physical_type = .int32 ∨
      (PrimitiveType.mk .int32).physical_type = .int64) ∧
    columns_to_iter_recursive false [⟨[⟨1, none, none⟩], .ints [9]⟩] [⟨.int32⟩]
        (.mk "d" (.decimal256 76 0) true none) [] none
      = .ok ([], .numA (.decimal256 76 0) none [9]) ∧
    columns_to_iter_recursive false [⟨[⟨1, none, none⟩], .bytes [255, 255]⟩]
        [⟨.fixedLenByteArray 2⟩] (.mk "d" (.decimal256 76 0) true none) [] none
      = .ok ([], .numA (.decimal256 76 0) none [-1]) ∧
    columns_to_iter_recursive false
        [⟨[⟨1, none, none⟩],
          .bytes [128, 0, 0, 0, 0, 0, 0, 0, 0, 0, 0, 0, 0, 0, 0, 0, 0]⟩]
        [⟨.fixedLenByteArray 17⟩] (.mk "d" (.decimal256 76 0) true none) [] none
      = .ok ([], .numA (.decimal256 76 0) none [-(2 ^ 135)]) ∧
    columns_to_iter_recursive false [] [⟨.fixedLenByteArray 33⟩]
        (.mk "d" (.decimal256 76 0) true none) [] none
      = .err (.computeError
          "Can not decode Decimal256 type from FixedLenByteArray of len 33") ∧
    columns_to_iter_recursive false [] [⟨.int96⟩]
        (.mk "d" (.decimal256 76 0) true none) [] none
      = .err (.computeError "Deserializing type for Decimal Int96 from parquet") := by
  refine ⟨Or.inl rfl, ?_, ?_, ?_, ?_, ?_⟩
  · have h := (decimal256_physical_branches false "d" true none 76 0 ⟨.int32⟩ []
      ⟨[⟨1, none, none⟩], .ints [9]⟩ [] [] ⟨1, none, none⟩ [] none).1
      [9] (Or.inl rfl) rfl rfl rfl
    rw [h]; rfl
  · have h := (decimal256_physical_branches false "d" true none 76 0 ⟨.fixedLenByteArray 2⟩ []
      ⟨[⟨1, none, none⟩], .bytes [255, 255]⟩ [] [] ⟨1, none, none⟩ [] none).2.1
      2 [255, 255] rfl (by omega) rfl rfl rfl
    rw [h]; rfl
  · have h := (decimal256_physical_branches false "d" true none 76 0
      ⟨.fixedLenByteArray 17⟩ []
      ⟨[⟨1, none, none⟩], .bytes [128, 0, 0, 0, 0, 0, 0, 0, 0, 0, 0, 0, 0, 0, 0, 0, 0]⟩
      [] [] ⟨1, none, none⟩ [] none).2.2.1
      17 [128, 0, 0, 0, 0, 0, 0, 0, 0, 0, 0, 0, 0, 0, 0, 0, 0] rfl (by omega) (by omega)
      rfl rfl rfl
    rw [h]
    norm_num [chunksExact, chunksExactAux, convert_i256, beTwosComplement]
  · exact (decimal256_physical_branches false "d" true none 76 0 ⟨.fixedLenByteArray 33⟩ []
      ⟨[], .ints []⟩ [] [] ⟨0, none, none⟩ [] none).2.2.2.1 33 rfl (by omega) []
  · exact (decimal256_physical_branches false "d" true none 76 0 ⟨.int96⟩ []
      ⟨[], .ints []⟩ [] [] ⟨0, none, none⟩ [] none).2.2.2.2
      (by simp) (by simp) (fun n => by simp) []

/-- Statement helper for the struct claims: the per-member recursion
results for a declared field list. The member `f` declared before `fs`
receives exactly the `n_columns_field f` stack entries sitting just above
the `n_columns_fields fs` entries consumed by the later-declared members
(the tail splits of the source), and returns a `NestedState` headed by its
struct-level entry. -/
def StructRecResults (debug : Bool) (columns : List LeafColumn)
    (types : List PrimitiveType) (snb : Bool) (init : List InitNested)
    (filter : RowFilter) :
    List AField → List (NestedEntry × NestedState × ArrayValue) → Prop
  | [], [] => True
  | f :: fs, r :: rs =>
      r.1.content = NestedContent.struct ∧
      columns_to_iter_recursive debug
          ((columns.drop (n_columns_fields fs)).take (n_columns_field f))
          ((types.drop (n_columns_fields fs)).take (n_columns_field f))
          f (InitNested.struct snb :: init) filter
        = .ok (r.1 :: r.2.1, r.2.2) ∧
      StructRecResults debug columns types snb init filter fs rs
  | _, _ => False

/-- The struct-member loop, characterized: given per-member recursion
results (in declared order) whose struct-level validities agree in debug
builds, the loop returns the declared-order child arrays together with the
length, validity and remaining state popped from the entry of the
first-processed (structurally last) member. -/
theorem struct_fields_loop_ok (debug : Bool) (columns : List LeafColumn)
    (types : List PrimitiveType) (snb : Bool) (init : List InitNested)
    (filter : RowFilter) :
    ∀ (fields : List AField) (rs : List (NestedEntry × NestedState × ArrayValue))
      (lastR : NestedEntry × NestedState × ArrayValue),
      StructRecResults debug columns types snb init filter fields rs →
      rs.getLast? = some lastR →
      (debug = true → ∀ r ∈ rs,
        r.1.validity.bind freeze_validity = lastR.1.validity.bind freeze_validity) →
      n_columns_fields fields ≤ columns.length →
      n_columns_fields fields ≤ types.length →
      struct_fields_loop debug columns types snb fields init filter
        = .ok (rs.map (fun r => r.2.2), lastR.1.length, lastR.1.validity, lastR.2.1) := by
  intro fields
  induction fields with
  | nil =>
    intro rs lastR hchain hlast hdbg hc ht
    cases rs with
    | nil => simp at hlast
    | cons r rs2 => exact absurd hchain (by simp [StructRecResults])
  | cons f fs ih =>
    intro rs lastR hchain hlast hdbg hc ht
    cases rs with
    | nil => exact absurd hchain (by cases fs <;> simp [StructRecResults])
    | cons r rs2 =>
      obtain ⟨hcont, hrec, hchain2⟩ := hchain
      cases fs with
      | nil =>
        cases rs2 with
        | cons r2 rs3 => exact absurd hchain2 (by simp [StructRecResults])
        | nil =>
          have hlr : lastR = r := by simpa using hlast.symm
          subst hlr
          have hg : n_columns_field f ≤ columns.length ∧
              n_columns_field f ≤ types.length := by
            simp [n_columns_fields] at hc ht
            omega
          simp only [n_columns_fields, List.drop_zero] at hrec
          cases debug <;>
            simp [struct_fields_loop, hg, hrec, hcont]
      | cons g gs =>
        have hrs2 : rs2 ≠ [] := by
          intro h
          subst h
          exact absurd hchain2 (by simp [StructRecResults])
        have hlast2 : rs2.getLast? = some lastR := by
          cases rs2 with
          | nil => exact absurd rfl hrs2
          | cons x xs => simpa using hlast
        have hle2c : n_columns_fields (g :: gs) ≤ columns.length := by
          simp [n_columns_fields] at hc ⊢
          omega
        have hle2t : n_columns_fields (g :: gs) ≤ types.length := by
          simp [n_columns_fields] at ht ⊢
          omega
        have ih2 := ih rs2 lastR hchain2 hlast2
          (fun hd r2 h2 => hdbg hd r2 (List.mem_cons_of_mem _ h2)) hle2c hle2t
        have hg : n_columns_field f ≤ columns.length - n_columns_fields (g :: gs) ∧
            n_columns_field f ≤ types.length - n_columns_fields (g :: gs) := by
          simp [n_columns_fields] at hc ht ⊢
          omega
        have hvr : r.1.validity.bind freeze_validity
            = lastR.1.validity.bind freeze_validity ∨ debug = false := by
          cases debug with
          | false => exact Or.inr rfl
          | true => exact Or.inl (hdbg rfl r (List.mem_cons_self _ _))
        cases debug with
        | false =>
          simp [struct_fields_loop, ih2, hg, hrec]
        | true =>
          have hv := hvr.resolve_right (by simp)
          simp [struct_fields_loop, ih2, hg, hrec, hcont, hv]

/-- C1: a struct node with at least one member processes members in
reverse declared order, each receiving exactly its schema-derived
leaf-column count split off the tail of both stacks (the slices inside
`StructRecResults`); the children collected in reverse-consumption order
come back reversed into declared order, and the struct array takes its
length and (collapsed) validity from the struct-level entry of the
first-processed, structurally last member, whose remaining state is
returned. -/
theorem struct_reconstruction_declared_order (debug : Bool)
    (columns : List LeafColumn) (types : List PrimitiveType)
    (nm : String) (snb : Bool) (md : Option (List String))
    (fields : List AField) (rs : List (NestedEntry × NestedState × ArrayValue))
    (lastR : NestedEntry × NestedState × ArrayValue)
    (init : List InitNested) (filter : RowFilter)
    (hchain : StructRecResults debug columns types snb init filter fields rs)
    (hlast : rs.getLast? = some lastR)
    (hdbg : debug = true → ∀ r ∈ rs,
      r.1.validity.bind freeze_validity = lastR.1.validity.bind freeze_validity)
    (hc : n_columns_fields fields ≤ columns.length)
    (ht : n_columns_fields fields ≤ types.length) :
    columns_to_iter_recursive debug columns types
        (.mk nm (.struct fields) snb md) init filter
      = .ok (lastR.2.1,
          .structA (.struct fields) lastR.1.length (rs.map fun r => r.2.2)
            (lastR.1.validity.bind freeze_validity)) := by
  have h := struct_fields_loop_ok debug columns types snb init filter fields rs lastR
    hchain hlast hdbg hc ht
  simp [columns_to_iter_recursive, h]

/-- C1 witness: a two-member struct (boolean then int32) over concrete
stacks reconstructs with the children in declared order and the length and
validity of the first-processed member's struct-level entry. -/
theorem struct_reconstruction_declared_order_witness :
    columns_to_iter_recursive true
        [⟨[⟨2, none, some [true, true]⟩, ⟨2, none, some [true, true]⟩], .ints [3, 4]⟩,
         ⟨[⟨2, none, some [true, true]⟩, ⟨2, none, some [true, true]⟩], .bools [true, false]⟩]
        [⟨.int32⟩, ⟨.boolean⟩]
        (.mk "s" (.struct [.mk "a" .boolean true none, .mk "b" .int32 true none]) true none)
        [] none
      = .ok ([], .structA (.struct [.mk "a" .boolean true none, .mk "b" .int32 true none]) 2
          [.boolA (some [true, true]) [true, false],
           .numA .int32 (some [true, true]) [3, 4]]
          none) := by
  have h := struct_reconstruction_declared_order true
    [⟨[⟨2, none, some [true, true]⟩, ⟨2, none, some [true, true]⟩], .ints [3, 4]⟩,
     ⟨[⟨2, none, some [true, true]⟩, ⟨2, none, some [true, true]⟩], .bools [true, false]⟩]
    [⟨.int32⟩, ⟨.boolean⟩] "s" true none
    [.mk "a" .boolean true none, .mk "b" .int32 true none]
    [(⟨.struct, 2, none, some [true, true]⟩, [], .boolA (some [true, true]) [true, false]),
     (⟨.struct, 2, none, some [true, true]⟩, [], .numA .int32 (some [true, true]) [3, 4])]
    (⟨.struct, 2, none, some [true, true]⟩, [], .numA .int32 (some [true, true]) [3, 4])
    [] none
    ⟨rfl, rfl, rfl, rfl, trivial⟩ rfl
    (fun _ r hr => by fin_cases hr <;> rfl)
    (by decide) (by decide)
  rw [h]
  rfl

/-- C6: with at least one later-declared member processed coherently, a
member whose struct-level entry carries a collapsed validity different
from the authoritative one fails through the debug assertion in debug
builds, while in release builds the comparison is skipped and
reconstruction succeeds. -/
theorem struct_validity_mismatch_debug_assert (debug : Bool)
    (columns : List LeafColumn) (types : List PrimitiveType)
    (nm : String) (snb : Bool) (md : Option (List String))
    (f : AField) (rest : List AField)
    (rs : List (NestedEntry × NestedState × ArrayValue))
    (lastR : NestedEntry × NestedState × ArrayValue)
    (e : NestedEntry) (restS : NestedState) (a : ArrayValue)
    (init : List InitNested) (filter : RowFilter)
    (hne : rest ≠ [])
    (hchain : StructRecResults debug columns types snb init filter rest rs)
    (hlast : rs.getLast? = some lastR)
    (hall : ∀ r ∈ rs,
      r.1.validity.bind freeze_validity = lastR.1.validity.bind freeze_validity)
    (hf : columns_to_iter_recursive debug
        ((columns.drop (n_columns_fields rest)).take (n_columns_field f))
        ((types.drop (n_columns_fields rest)).take (n_columns_field f))
        f (InitNested.struct snb :: init) filter = .ok (e :: restS, a))
    (hcont : e.content = NestedContent.struct)
    (hneq : e.validity.bind freeze_validity ≠ lastR.1.validity.bind freeze_validity)
    (hc : n_columns_fields (f :: rest) ≤ columns.length)
    (ht : n_columns_fields (f :: rest) ≤ types.length) :
    (debug = true →
      columns_to_iter_recursive debug columns types
          (.mk nm (.struct (f :: rest)) snb md) init filter
        = .panicked "debug assertion failed: struct member validity differs") ∧
    (debug = false →
      columns_to_iter_recursive debug columns types
          (.mk nm (.struct (f :: rest)) snb md) init filter
        = .ok (lastR.2.1,
            .structA (.struct (f :: rest)) lastR.1.length (a :: rs.map fun r => r.2.2)
              (lastR.1.validity.bind freeze_validity))) := by
  cases rest with
  | nil => exact absurd rfl hne
  | cons g gs =>
    have hle2c : n_columns_fields (g :: gs) ≤ columns.length := by
      simp [n_columns_fields] at hc ⊢
      omega
    have hle2t : n_columns_fields (g :: gs) ≤ types.length := by
      simp [n_columns_fields] at ht ⊢
      omega
    have hloop := struct_fields_loop_ok debug columns types snb init filter
      (g :: gs) rs lastR hchain hlast (fun _ => hall) hle2c hle2t
    have hg : n_columns_field f ≤ columns.length - n_columns_fields (g :: gs) ∧
        n_columns_field f ≤ types.length - n_columns_fields (g :: gs) := by
      simp [n_columns_fields] at hc ht ⊢
      omega
    constructor <;> intro hd <;> subst hd
    · simp [columns_to_iter_recursive, struct_fields_loop, hloop, hg, hf, hcont, hneq]
    · simp [columns_to_iter_recursive, struct_fields_loop, hloop, hg, hf]

/-- C6 witness: the same two-member struct with the second-processed
member's struct-level validity differing from the authoritative one panics
in a debug build and succeeds in a release build. -/
theorem struct_validity_mismatch_debug_assert_witness :
    columns_to_iter_recursive true
        [⟨[⟨2, none, some [true, true]⟩, ⟨2, none, some [true, true]⟩], .ints [3, 4]⟩,
         ⟨[⟨2, none, some [true, false]⟩, ⟨2, none, some [true, false]⟩], .bools [true, false]⟩]
        [⟨.int32⟩, ⟨.boolean⟩]
        (.mk "s" (.struct [.mk "a" .boolean true none, .mk "b" .int32 true none]) true none)
        [] none
      = .panicked "debug assertion failed: struct member validity differs" ∧
    columns_to_iter_recursive false
        [⟨[⟨2, none, some [true, true]⟩, ⟨2, none, some [true, true]⟩], .ints [3, 4]⟩,
         ⟨[⟨2, none, some [true, false]⟩, ⟨2, none, some [true, false]⟩], .bools [true, false]⟩]
        [⟨.int32⟩, ⟨.boolean⟩]
        (.mk "s" (.struct [.mk "a" .boolean true none, .mk "b" .int32 true none]) true none)
        [] none
      = .ok ([], .structA (.struct [.mk "a" .boolean true none, .mk "b" .int32 true none]) 2
          [.boolA (some [true, false]) [true, false],
           .numA .int32 (some [true, true]) [3, 4]]
          none) := by
  constructor
  · exact (struct_validity_mismatch_debug_assert true
      [⟨[⟨2, none, some [true, true]⟩, ⟨2, none, some [true, true]⟩], .ints [3, 4]⟩,
       ⟨[⟨2, none, some [true, false]⟩, ⟨2, none, some [true, false]⟩], .bools [true, false]⟩]
      [⟨.int32⟩, ⟨.boolean⟩] "s" true none
      (.mk "a" .boolean true none) [.mk "b" .int32 true none]
      [(⟨.struct, 2, none, some [true, true]⟩, [], .numA .int32 (some [true, true]) [3, 4])]
      (⟨.struct, 2, none, some [true, true]⟩, [], .numA .int32 (some [true, true]) [3, 4])
      ⟨.struct, 2, none, some [true, false]⟩ []
      (.boolA (some [true, false]) [true, false]) [] none
      (by simp) ⟨rfl, rfl, trivial⟩ rfl
      (fun r hr => by fin_cases hr; rfl)
      rfl rfl (by decide) (by decide) (by decide)).1 rfl
  · have h := (struct_validity_mismatch_debug_assert false
      [⟨[⟨2, none, some [true, true]⟩, ⟨2, none, some [true, true]⟩], .ints [3, 4]⟩,
       ⟨[⟨2, none, some [true, false]⟩, ⟨2, none, some [true, false]⟩], .bools [true, false]⟩]
      [⟨.int32⟩, ⟨.boolean⟩] "s" true none
      (.mk "a" .boolean true none) [.mk "b" .int32 true none]
      [(⟨.struct, 2, none, some [true, true]⟩, [], .numA .int32 (some [true, true]) [3, 4])]
      (⟨.struct, 2, none, some [true, true]⟩, [], .numA .int32 (some [true, true]) [3, 4])
      ⟨.struct, 2, none, some [true, false]⟩ []
      (.boolA (some [true, false]) [true, false]) [] none
      (by simp) ⟨rfl, rfl, trivial⟩ rfl
      (fun r hr => by fin_cases hr; rfl)
      rfl rfl (by decide) (by decide) (by decide)).2 rfl
    rw [h]
    rfl
